import Mathlib

/-!
Verification of the session-level WebRTC transport controller
(`server/webrtctransport.go`): track registry, packet pumps, the shutdown
coordinator and the channel publication discipline.

The Go code is shallowly embedded: the mutable fields of `WebRTCTransport`
that the verified operations touch (`localTracks`, `remoteTracks`, the
prometheus counters) become a `TransportState` record that every operation
threads explicitly; calls into the external engine (pion) are parameters
describing the engine's answer for that call; goroutine interleavings for
the shutdown coordinator are modelled by an explicit scheduler over the
per-goroutine action sequences that appear in the source.
-/

namespace PeerCalls

/-- `webrtc.RTPCodecType` restricted to the values the file uses. -/
inductive RTPCodecType
  | audio
  | video
deriving DecidableEq, Repr

/-- `TrackInfo` from webrtctransport.go: SSRC, ID, StreamID, Kind, Mid. -/
structure TrackInfo where
  ssrc : Nat
  id : String
  streamID : String
  kind : RTPCodecType
  mid : String
deriving DecidableEq, Repr

/-- `TrackEventType`: Add / Remove. -/
inductive TrackEventType
  | add
  | remove
deriving DecidableEq, Repr

/-- `TrackEvent`: track metadata plus the event type tag. -/
structure TrackEvent where
  trackInfo : TrackInfo
  type : TrackEventType
deriving DecidableEq, Repr

/-- The negotiated transceiver as far as the verified code observes it:
`tr.Mid()` is the only call made on a stored transceiver. -/
structure Transceiver where
  mid : String
deriving DecidableEq, Repr

/-- `localTrackInfo`: registry value for a locally-sent track.  The engine
handles (`sender`, `track`) carry no observable state for the verified
operations beyond the engine-call answers, which are passed per call. -/
structure LocalTrackInfo where
  trackInfo : TrackInfo
  transceiver : Transceiver
deriving DecidableEq, Repr

/-- `remoteTrackInfo`: registry value for a remotely-received track. -/
structure RemoteTrackInfo where
  trackInfo : TrackInfo
  transceiver : Transceiver
deriving DecidableEq, Repr

/-- An `rtp.Packet` as the transport observes it: its SSRC field and its
`MarshalSize()`. -/
structure Packet where
  ssrc : Nat
  marshalSize : Nat
deriving DecidableEq, Repr

/-- Errors returned by the transport operations.  `notFound ssrc` is
`errors.Errorf("track %d not found", ssrc)`; `annotated ctx msg` is
`errors.Annotate(err, ctx)` around an engine error `msg`. -/
inductive GoError
  | notFound (ssrc : Nat)
  | annotated (ctx : String) (msg : String)
deriving DecidableEq, Repr

/-- A Go `map[uint32]V`, embedded as an association list with unique keys
maintained by `mapInsert`/`mapDelete`. -/
abbrev GoMap (V : Type) : Type := List (Nat × V)

/-- `m[k]` with `ok` encoded as `Option`. -/
def mapLookup {V : Type} (m : GoMap V) (k : Nat) : Option V :=
  (m.find? (fun p => p.fst == k)).map (·.snd)

/-- `m[k] = v` (overwrites any entry with the same key). -/
def mapInsert {V : Type} (m : GoMap V) (k : Nat) (v : V) : GoMap V :=
  (k, v) :: m.filter (fun p => p.fst ≠ k)

/-- `delete(m, k)`. -/
def mapDelete {V : Type} (m : GoMap V) (k : Nat) : GoMap V :=
  m.filter (fun p => p.fst ≠ k)

theorem mapLookup_delete {V : Type} (m : GoMap V) (k : Nat) :
    mapLookup (mapDelete m k) k = none := by
  induction m with
  | nil => rfl
  | cons p rest ih =>
    by_cases h : p.fst = k
    · simp only [mapDelete, mapLookup, List.filter, h] at ih ⊢
      simp [h, ih]
    · simp only [mapDelete, mapLookup, List.filter] at ih ⊢
      simp [h, List.find?, ih]

theorem mapLookup_insert {V : Type} (m : GoMap V) (k : Nat) (v : V) :
    mapLookup (mapInsert m k v) k = some v := by
  simp [mapInsert, mapLookup, List.find?]

/-- The mutable state of a `WebRTCTransport` touched by the verified
operations: the two registries and the outbound RTP prometheus counters. -/
structure TransportState where
  localTracks : GoMap LocalTrackInfo
  remoteTracks : GoMap RemoteTrackInfo
  rtpPacketsSent : Nat
  rtpPacketsSentBytes : Nat
deriving DecidableEq, Repr

/-- The state of a freshly constructed transport (`NewWebRTCTransport`):
both registries empty, counters at their initial reading. -/
def initialState : TransportState :=
  { localTracks := []
    remoteTracks := []
    rtpPacketsSent := 0
    rtpPacketsSentBytes := 0 }

/-- The answer of `pta.track.WriteRTP(packet)`: success, the distinguished
`io.ErrClosedPipe` (no subscriber), or any other error. -/
inductive EngineWriteResult
  | ok
  | closedPipe
  | err (msg : String)
deriving DecidableEq, Repr

/-- `WriteRTP` (webrtctransport.go lines 334-359).  Looks the packet's SSRC
up in `localTracks`; absent ⇒ `track %d not found`.  `io.ErrClosedPipe`
from the engine ⇒ `(0, nil)`.  Other engine errors are annotated
`"write rtp"`.  On success the two outbound counters are bumped and
`packet.MarshalSize()` is returned.  Result: new state, bytes, error. -/
def WriteRTP (s : TransportState) (engineWrite : EngineWriteResult)
    (packet : Packet) : TransportState × Nat × Option GoError :=
  match mapLookup s.localTracks packet.ssrc with
  | none => (s, 0, some (GoError.notFound packet.ssrc))
  | some _ =>
    match engineWrite with
    | EngineWriteResult.closedPipe => (s, 0, none)
    | EngineWriteResult.err m => (s, 0, some (GoError.annotated "write rtp" m))
    | EngineWriteResult.ok =>
      ({ s with
          rtpPacketsSent := s.rtpPacketsSent + 1
          rtpPacketsSentBytes := s.rtpPacketsSentBytes + packet.marshalSize },
        packet.marshalSize, none)

/-- Result of `RemoveTrack`: the state afterwards, the returned error, and
whether `signaller.Negotiate()` was invoked. -/
structure RemoveTrackResult where
  state : TransportState
  error : Option GoError
  negotiated : Bool
deriving DecidableEq, Repr

/-- `RemoveTrack` (webrtctransport.go lines 361-381).  Under the lock the
entry is looked up and, when present, deleted; absence ⇒
`track %d not found`.  Then `peerConnection.RemoveTrack(pta.sender)` runs
(`engineRemove = some msg` models its failure): failure is annotated
`"remove track"` and returned — the registry deletion is NOT undone and
`Negotiate` is not reached.  On engine success `Negotiate` fires. -/
def RemoveTrack (s : TransportState) (engineRemove : Option String)
    (ssrc : Nat) : RemoveTrackResult :=
  match mapLookup s.localTracks ssrc with
  | none => ⟨s, some (GoError.notFound ssrc), false⟩
  | some _ =>
    let s' := { s with localTracks := mapDelete s.localTracks ssrc }
    match engineRemove with
    | some m => ⟨s', some (GoError.annotated "remove track" m), false⟩
    | none => ⟨s', none, true⟩

/-- The engine's answers for one `AddTrack` call:
`webrtc.NewTrackLocalStaticRTP` failure, `peerConnection.AddTrack` failure,
and the transceiver found for the new sender in `GetTransceivers()`. -/
structure AddTrackEngine where
  newTrackErr : Option String
  addTrackErr : Option String
  transceiver : Transceiver
deriving DecidableEq, Repr

/-- Result of `AddTrack`: state, error, and whether the feedback-pump
goroutine was started (`wg.Add(1)` + `go func`). -/
structure AddTrackResult where
  state : TransportState
  error : Option GoError
  pumpStarted : Bool
deriving DecidableEq, Repr

/-- `AddTrack` (webrtctransport.go lines 383-442).  Creates the engine
track (VP8 capability ⇒ `track.Kind() = video`, `track.ID() = id`,
`track.StreamID() = streamId`); failure ⇒ annotated `"new track"`, nothing
registered, no pump.  Registers the sender; failure ⇒ annotated
`"add track"`, nothing registered, no pump.  Then triggers renegotiation,
starts the feedback pump, and inserts
`TrackInfo{ssrc, id, streamId, kind, Mid: ""}` into `localTracks`. -/
def AddTrack (s : TransportState) (eng : AddTrackEngine) (ssrc : Nat)
    (id streamId : String) : AddTrackResult :=
  match eng.newTrackErr with
  | some m => ⟨s, some (GoError.annotated "new track" m), false⟩
  | none =>
    match eng.addTrackErr with
    | some m => ⟨s, some (GoError.annotated "add track" m), false⟩
    | none =>
      let trackInfo : TrackInfo :=
        { ssrc := ssrc, id := id, streamID := streamId
          kind := RTPCodecType.video, mid := "" }
      ⟨{ s with
          localTracks :=
            mapInsert s.localTracks ssrc ⟨trackInfo, eng.transceiver⟩ },
        none, true⟩

/-- `LocalTracks` (webrtctransport.go lines 475-488): snapshot of the
local registry with `Mid` resolved from the live transceiver at read
time. -/
def LocalTracks (s : TransportState) : List TrackInfo :=
  s.localTracks.map fun p =>
    { p.snd.trackInfo with mid := p.snd.transceiver.mid }

/-- `RemoteTracks` (webrtctransport.go lines 459-472). -/
def RemoteTracks (s : TransportState) : List TrackInfo :=
  s.remoteTracks.map fun p =>
    { p.snd.trackInfo with mid := p.snd.transceiver.mid }

/-! ### handleTrack and the receive pump (lines 490-561)

`handleTrack` runs in the engine's `OnTrack` callback goroutine and spawns
the receive pump; together (per track their channel operations are
sequential) they emit, in order: the Added event, one RTP packet per
successful `track.ReadRTP()`, and — from the pump's deferred function
after the read loop exits — the Removed event.  The loop exits on `io.EOF`
or on any other read error; both exits run the same deferred teardown. -/

/-- A `*webrtc.TrackRemote` as `handleTrack` observes it. -/
structure RemoteTrack where
  ssrc : Nat
  id : String
  streamID : String
  kind : RTPCodecType
deriving DecidableEq, Repr

/-- The terminal read result that ends the receive pump's loop. -/
inductive ReadTerminal
  | eof
  | readErr (msg : String)
deriving DecidableEq, Repr

/-- The `trackInfo` value built at the top of `handleTrack` (lines
491-497): the track's SSRC/ID/StreamID/Kind and `Mid: ""`. -/
def handleTrackInfo (track : RemoteTrack) : TrackInfo :=
  { ssrc := track.ssrc, id := track.id, streamID := track.streamID
    kind := track.kind, mid := "" }

/-- One value sent on a shared channel: an RTP packet on `rtpCh` or a
`TrackEvent` on `trackEventsCh`. -/
inductive Emission
  | rtpPacket (p : Packet)
  | trackEvent (e : TrackEvent)
deriving DecidableEq, Repr

/-- The ordered channel emissions of `handleTrack` plus its receive pump,
given the successful reads `reads` and the terminal read `_terminal`
(unused: `io.EOF` and other read errors exit the loop identically, before
publishing anything for the failed read). -/
def handleTrackEmissions (track : RemoteTrack) (reads : List Packet)
    (_terminal : ReadTerminal) : List Emission :=
  Emission.trackEvent ⟨handleTrackInfo track, TrackEventType.add⟩ ::
    (reads.map Emission.rtpPacket ++
      [Emission.trackEvent ⟨handleTrackInfo track, TrackEventType.remove⟩])

/-- The subsequence of an emission list that went to `trackEventsCh`. -/
def trackEventsOf : List Emission → List TrackEvent
  | [] => []
  | Emission.rtpPacket _ :: rest => trackEventsOf rest
  | Emission.trackEvent e :: rest => e :: trackEventsOf rest

theorem trackEventsOf_rtp_append (l : List Packet) (r : List Emission) :
    trackEventsOf (l.map Emission.rtpPacket ++ r) = trackEventsOf r := by
  induction l with
  | nil => rfl
  | cons p rest ih => simpa [trackEventsOf] using ih

/-- The `trackEventsCh` trace of one remote track is exactly
`[Added, Removed]` built from `handleTrackInfo`. -/
theorem trackEventsOf_handleTrack (track : RemoteTrack) (reads : List Packet)
    (terminal : ReadTerminal) :
    trackEventsOf (handleTrackEmissions track reads terminal) =
      [⟨handleTrackInfo track, TrackEventType.add⟩,
        ⟨handleTrackInfo track, TrackEventType.remove⟩] := by
  simp [handleTrackEmissions, trackEventsOf, trackEventsOf_rtp_append]

/-! ### Shutdown coordination (lines 284-293, 400-417, 519-534)

The synchronization-relevant actions of each goroutine are embedded as a
sequential program; a scheduler interleaves the programs one action at a
time.  The only synchronization constraint the source imposes is that
`wg.Wait()` returns when the WaitGroup counter is zero; sends on an open
unbuffered channel are modelled as immediate (a consumer is available),
and a send after `close` is the fatal condition the trace records. -/

/-- The three shared channels closed by the coordinator goroutine. -/
inductive ChanId
  | rtpCh
  | rtcpCh
  | trackEventsCh
deriving DecidableEq, Repr

/-- Atomic synchronization actions taken by the goroutines of
webrtctransport.go. -/
inductive Action
  | closeSignalRecv
  | wgWaitReturn
  | dtClose
  | closeChans
  | wgAdd
  | wgDone
  | publish (ch : ChanId)
deriving DecidableEq, Repr

/-- The coordinator goroutine spawned in `NewWebRTCTransport` (lines
284-293): receive from `signaller.CloseChannel()`, `wg.Wait()`,
`dataTransceiver.Close()`, then close `rtpCh`, `rtcpCh` and
`trackEventsCh`. -/
def closerProg : List Action :=
  [Action.closeSignalRecv, Action.wgWaitReturn, Action.dtClose,
    Action.closeChans]

/-- The `OnTrack` callback `handleTrack` serialized with the receive pump
it spawns, for a track whose pump reads `n` packets before its loop ends
(lines 490-561): send the Added event on `trackEventsCh` (line 519), THEN
`wg.Add(1)` (line 524); the pump sends each packet on `rtpCh`, and its
deferred function sends the Removed event (line 529) before `wg.Done()`
(line 534). -/
def handleTrackProg (n : Nat) : List Action :=
  Action.publish ChanId.trackEventsCh :: Action.wgAdd ::
    (List.replicate n (Action.publish ChanId.rtpCh) ++
      [Action.publish ChanId.trackEventsCh, Action.wgDone])

/-- The `AddTrack` caller serialized with the send-feedback pump it spawns,
for a pump that publishes `n` RTCP packets (lines 400-417): `wg.Add(1)`
(line 400) precedes the spawn; the pump sends on `rtcpCh` and `wg.Done()`
runs (deferred) after its loop exits. -/
def feedbackPumpProg (n : Nat) : List Action :=
  Action.wgAdd ::
    (List.replicate n (Action.publish ChanId.rtcpCh) ++ [Action.wgDone])

/-- The WaitGroup counter after a history of actions. -/
def wgCounter (hist : List Action) : Int :=
  hist.foldl
    (fun c a =>
      match a with
      | Action.wgAdd => c + 1
      | Action.wgDone => c - 1
      | _ => c)
    0

/-- Whether the next action may execute after `hist`: `wg.Wait()` returns
only when the counter is zero; every other action is always enabled. -/
def enabledAfter (hist : List Action) (a : Action) : Bool :=
  match a with
  | Action.wgWaitReturn => wgCounter hist == 0
  | _ => true

/-- Run a schedule (a list of goroutine indices) over the goroutine
programs, producing the action trace, or `none` if the schedule picks a
finished/unknown goroutine or a disabled action. -/
def runSchedAux : List (List Action) → List Nat → List Action →
    Option (List Action)
  | _, [], hist => some hist
  | progs, i :: rest, hist =>
    match progs.get? i with
    | none => none
    | some [] => none
    | some (a :: remaining) =>
      if enabledAfter hist a then
        runSchedAux (progs.set i remaining) rest (hist ++ [a])
      else
        none

/-- Run a schedule from the empty history. -/
def runSched (progs : List (List Action)) (sched : List Nat) :
    Option (List Action) :=
  runSchedAux progs sched []

/-- `true` iff some `publish` occurs after `closeChans` in the trace: a
send on a closed channel, which is a fatal runtime error in Go. -/
def publishAfterClose : List Action → Bool
  | [] => false
  | Action.closeChans :: rest =>
    rest.any fun a =>
      match a with
      | Action.publish _ => true
      | _ => false
  | _ :: rest => publishAfterClose rest

/-! ### Sample concrete values used by the witnesses -/

/-- A concrete registered local track (SSRC 1001, id "v0", stream "s0"). -/
def sampleLocal : LocalTrackInfo :=
  { trackInfo :=
      { ssrc := 1001, id := "v0", streamID := "s0"
        kind := RTPCodecType.video, mid := "" }
    transceiver := { mid := "0" } }

/-- A concrete transport state whose local registry holds `sampleLocal`
under SSRC 1001. -/
def sampleState : TransportState :=
  { localTracks := [(1001, sampleLocal)]
    remoteTracks := []
    rtpPacketsSent := 0
    rtpPacketsSentBytes := 0 }

/-! ### The claims -/

/-- C1: the coordinator is supposed to close the shared channels only
after every goroutine that can publish on them has exited.  The code does
not guarantee this: `handleTrack` publishes the Added event on
`trackEventsCh` (line 519) BEFORE registering with the WaitGroup
(`wg.Add(1)`, line 524), so the callback goroutine is invisible to the
`wg.Wait()` at line 288.  In the schedule below the close signal fires,
`wg.Wait()` returns with counter 0, the channels are closed, and only then
does the callback run its first statement: its publish lands on the closed
`trackEventsCh`, a fatal send-on-closed-channel — contradicting the
comment at line 287 ("do not close channels before all writing goroutines
exit"). -/
theorem closeCoordination_publishAfterClose :
    runSched [closerProg, handleTrackProg 0] [0, 0, 0, 0, 1] =
      some [Action.closeSignalRecv, Action.wgWaitReturn, Action.dtClose,
        Action.closeChans, Action.publish ChanId.trackEventsCh] ∧
    publishAfterClose
      [Action.closeSignalRecv, Action.wgWaitReturn, Action.dtClose,
        Action.closeChans, Action.publish ChanId.trackEventsCh] = true := by
  constructor
  · rfl
  · rfl

/-- C2: for every SSRC absent from the local registry, `WriteRTP` and
`RemoveTrack` both fail with the not-found error and leave the state
unchanged; and after a successful `RemoveTrack` a subsequent `WriteRTP`
for that SSRC fails with not-found. -/
theorem writeRTP_removeTrack_notFound (s s₀ : TransportState)
    (eng : EngineWriteResult) (engRemove : Option String) (pkt : Packet)
    (h : mapLookup s.localTracks pkt.ssrc = none)
    (h₀ : (RemoveTrack s₀ none pkt.ssrc).error = none) :
    WriteRTP s eng pkt = (s, 0, some (GoError.notFound pkt.ssrc)) ∧
    RemoveTrack s engRemove pkt.ssrc =
      ⟨s, some (GoError.notFound pkt.ssrc), false⟩ ∧
    WriteRTP (RemoveTrack s₀ none pkt.ssrc).state eng pkt =
      ((RemoveTrack s₀ none pkt.ssrc).state, 0,
        some (GoError.notFound pkt.ssrc)) := by
  refine ⟨by simp [WriteRTP, h], by simp [RemoveTrack, h], ?_⟩
  cases h0 : mapLookup s₀.localTracks pkt.ssrc with
  | none => simp [RemoveTrack, h0] at h₀
  | some lti => simp [RemoveTrack, h0, WriteRTP, mapLookup_delete]

theorem writeRTP_removeTrack_notFound_witness :
    mapLookup initialState.localTracks 1001 = none ∧
    (RemoveTrack sampleState none 1001).error = none ∧
    WriteRTP initialState EngineWriteResult.ok ⟨1001, 10⟩ =
      (initialState, 0, some (GoError.notFound 1001)) := by
  refine ⟨by decide, by decide, ?_⟩
  exact (writeRTP_removeTrack_notFound initialState sampleState
    EngineWriteResult.ok none ⟨1001, 10⟩ (by decide) (by decide)).1

/-- C3: for a registered SSRC, the distinguished no-subscriber condition
(`io.ErrClosedPipe`) from the engine makes `WriteRTP` return `(0, nil)`
with no state change. -/
theorem writeRTP_noSubscriber (s : TransportState) (pkt : Packet)
    (lti : LocalTrackInfo)
    (h : mapLookup s.localTracks pkt.ssrc = some lti) :
    WriteRTP s EngineWriteResult.closedPipe pkt = (s, 0, none) := by
  simp [WriteRTP, h]

theorem writeRTP_noSubscriber_witness :
    mapLookup sampleState.localTracks 1001 = some sampleLocal ∧
    WriteRTP sampleState EngineWriteResult.closedPipe ⟨1001, 200⟩ =
      (sampleState, 0, none) :=
  ⟨by decide,
    writeRTP_noSubscriber sampleState ⟨1001, 200⟩ sampleLocal (by decide)⟩

/-- C4: for a registered SSRC, a successful engine send makes `WriteRTP`
return the marshaled size with a nil error and bump the sent-packet
counter by one and the sent-byte counter by exactly the marshaled size. -/
theorem writeRTP_success_counters (s : TransportState) (pkt : Packet)
    (lti : LocalTrackInfo)
    (h : mapLookup s.localTracks pkt.ssrc = some lti) :
    WriteRTP s EngineWriteResult.ok pkt =
      ({ s with
          rtpPacketsSent := s.rtpPacketsSent + 1
          rtpPacketsSentBytes := s.rtpPacketsSentBytes + pkt.marshalSize },
        pkt.marshalSize, none) := by
  simp [WriteRTP, h]

theorem writeRTP_success_counters_witness :
    mapLookup sampleState.localTracks 1001 = some sampleLocal ∧
    WriteRTP sampleState EngineWriteResult.ok ⟨1001, 200⟩ =
      ({ sampleState with rtpPacketsSent := 1, rtpPacketsSentBytes := 200 },
        200, none) :=
  ⟨by decide,
    writeRTP_success_counters sampleState ⟨1001, 200⟩ sampleLocal (by decide)⟩

/-- C5: starting from an empty local registry, a successful `AddTrack`
followed by `LocalTracks` yields exactly one entry whose SSRC, id and
stream id are the arguments of the add call. -/
theorem addTrack_localTracks_singleton (s : TransportState)
    (eng : AddTrackEngine) (ssrc : Nat) (id streamId : String)
    (hempty : s.localTracks = [])
    (h1 : eng.newTrackErr = none) (h2 : eng.addTrackErr = none) :
    (AddTrack s eng ssrc id streamId).error = none ∧
    LocalTracks (AddTrack s eng ssrc id streamId).state =
      [{ ssrc := ssrc, id := id, streamID := streamId
         kind := RTPCodecType.video, mid := eng.transceiver.mid }] := by
  constructor
  · simp [AddTrack, h1, h2]
  · simp [AddTrack, h1, h2, LocalTracks, mapInsert, hempty]

theorem addTrack_localTracks_singleton_witness :
    initialState.localTracks = [] ∧
    (AddTrack initialState ⟨none, none, ⟨"0"⟩⟩ 1001 "v0" "s0").error = none ∧
    LocalTracks (AddTrack initialState ⟨none, none, ⟨"0"⟩⟩ 1001 "v0" "s0").state =
      [{ ssrc := 1001, id := "v0", streamID := "s0"
         kind := RTPCodecType.video, mid := "0" }] := by
  refine ⟨by decide, ?_, ?_⟩
  · exact (addTrack_localTracks_singleton initialState ⟨none, none, ⟨"0"⟩⟩
      1001 "v0" "s0" rfl rfl rfl).1
  · exact (addTrack_localTracks_singleton initialState ⟨none, none, ⟨"0"⟩⟩
      1001 "v0" "s0" rfl rfl rfl).2

/-- C6: when engine-level track creation or sender registration fails,
`AddTrack` returns an error, registers nothing, and starts no feedback
pump. -/
theorem addTrack_engineFailure (s : TransportState) (eng : AddTrackEngine)
    (ssrc : Nat) (id streamId : String)
    (h : eng.newTrackErr ≠ none ∨ eng.addTrackErr ≠ none) :
    (AddTrack s eng ssrc id streamId).error ≠ none ∧
    (AddTrack s eng ssrc id streamId).state = s ∧
    (AddTrack s eng ssrc id streamId).pumpStarted = false := by
  cases hn : eng.newTrackErr with
  | some m => simp [AddTrack, hn]
  | none =>
    cases ha : eng.addTrackErr with
    | some m => simp [AddTrack, hn, ha]
    | none =>
      cases h with
      | inl h => exact absurd hn h
      | inr h => exact absurd ha h

theorem addTrack_engineFailure_witness :
    ((⟨some "fail", none, ⟨"0"⟩⟩ : AddTrackEngine).newTrackErr ≠ none ∨
      (⟨some "fail", none, ⟨"0"⟩⟩ : AddTrackEngine).addTrackErr ≠ none) ∧
    (AddTrack initialState ⟨some "fail", none, ⟨"0"⟩⟩ 1001 "v0" "s0").error ≠ none ∧
    (AddTrack initialState ⟨some "fail", none, ⟨"0"⟩⟩ 1001 "v0" "s0").state =
      initialState ∧
    (AddTrack initialState ⟨some "fail", none, ⟨"0"⟩⟩ 1001 "v0" "s0").pumpStarted =
      false := by
  refine ⟨Or.inl (by decide), ?_⟩
  exact addTrack_engineFailure initialState ⟨some "fail", none, ⟨"0"⟩⟩
    1001 "v0" "s0" (Or.inl (by decide))

/-- C7: for every remote track, the track-event trace of `handleTrack`
plus its receive pump is exactly `[Added, Removed]` (one Added published
before the read loop — it is the head of the whole emission trace — and
one Removed after the loop exits — the last emission), both carrying the
SSRC of the track. -/
theorem handleTrack_event_sequence (track : RemoteTrack)
    (reads : List Packet) (terminal : ReadTerminal) :
    trackEventsOf (handleTrackEmissions track reads terminal) =
      [⟨handleTrackInfo track, TrackEventType.add⟩,
        ⟨handleTrackInfo track, TrackEventType.remove⟩] ∧
    (handleTrackEmissions track reads terminal).head? =
      some (Emission.trackEvent
        ⟨handleTrackInfo track, TrackEventType.add⟩) ∧
    (handleTrackEmissions track reads terminal).getLast? =
      some (Emission.trackEvent
        ⟨handleTrackInfo track, TrackEventType.remove⟩) ∧
    (handleTrackInfo track).ssrc = track.ssrc := by
  refine ⟨trackEventsOf_handleTrack track reads terminal, rfl, ?_, rfl⟩
  rw [handleTrackEmissions, ← List.cons_append, List.getLast?_concat]

/-- C9: every `TrackEvent` that `handleTrack` and its pump publish on
`trackEventsCh` — Added and Removed alike — carries an empty `Mid`: the
resolved `Mid` appears only in `LocalTracks`/`RemoteTracks` snapshots. -/
theorem trackEvents_mid_empty (track : RemoteTrack) (reads : List Packet)
    (terminal : ReadTerminal) :
    (trackEventsOf (handleTrackEmissions track reads terminal)).all
      (fun e => e.trackInfo.mid == "") = true := by
  rw [trackEventsOf_handleTrack]
  simp [handleTrackInfo]

/-- C8: removing a present SSRC when the engine-level sender removal fails
returns the annotated error, leaves the registry entry deleted (the state
is the deleted one, and the SSRC no longer resolves), and triggers no
renegotiation. -/
theorem removeTrack_engineFailure (s : TransportState) (ssrc : Nat)
    (msg : String) (lti : LocalTrackInfo)
    (h : mapLookup s.localTracks ssrc = some lti) :
    RemoveTrack s (some msg) ssrc =
      ⟨{ s with localTracks := mapDelete s.localTracks ssrc },
        some (GoError.annotated "remove track" msg), false⟩ ∧
    mapLookup (RemoveTrack s (some msg) ssrc).state.localTracks ssrc =
      none := by
  refine ⟨by simp [RemoveTrack, h], ?_⟩
  simp [RemoveTrack, h, mapLookup_delete]

theorem removeTrack_engineFailure_witness :
    mapLookup sampleState.localTracks 1001 = some sampleLocal ∧
    RemoveTrack sampleState (some "boom") 1001 =
      ⟨{ sampleState with localTracks := mapDelete sampleState.localTracks 1001 },
        some (GoError.annotated "remove track" "boom"), false⟩ ∧
    mapLookup (RemoveTrack sampleState (some "boom") 1001).state.localTracks
      1001 = none := by
  refine ⟨by decide, ?_⟩
  exact removeTrack_engineFailure sampleState 1001 "boom" sampleLocal (by decide)

/-- C10: on both failing branches of `WriteRTP` (SSRC not registered, or
any non-`ok` engine answer, the suppressed no-subscriber condition
included) the outbound sent-packet and sent-byte counters are unchanged;
only the successful-send branch increments them. -/
theorem writeRTP_failure_counters_unchanged (s : TransportState)
    (eng : EngineWriteResult) (pkt : Packet)
    (h : mapLookup s.localTracks pkt.ssrc = none ∨
      eng ≠ EngineWriteResult.ok) :
    (WriteRTP s eng pkt).fst.rtpPacketsSent = s.rtpPacketsSent ∧
    (WriteRTP s eng pkt).fst.rtpPacketsSentBytes = s.rtpPacketsSentBytes := by
  cases hl : mapLookup s.localTracks pkt.ssrc with
  | none => simp [WriteRTP, hl]
  | some lti =>
    cases eng with
    | ok =>
      cases h with
      | inl h' => exact absurd hl (by simp [h'])
      | inr h' => exact absurd rfl h'
    | closedPipe => simp [WriteRTP, hl]
    | err m => simp [WriteRTP, hl]

theorem writeRTP_failure_counters_unchanged_witness :
    (mapLookup sampleState.localTracks 1001 = some sampleLocal ∨
      EngineWriteResult.closedPipe ≠ EngineWriteResult.ok) ∧
    (WriteRTP sampleState EngineWriteResult.closedPipe ⟨1001, 200⟩).fst.rtpPacketsSent =
      sampleState.rtpPacketsSent ∧
    (WriteRTP sampleState EngineWriteResult.closedPipe ⟨1001, 200⟩).fst.rtpPacketsSentBytes =
      sampleState.rtpPacketsSentBytes := by
  refine ⟨Or.inr (by decide), ?_⟩
  exact writeRTP_failure_counters_unchanged sampleState
    EngineWriteResult.closedPipe ⟨1001, 200⟩ (Or.inr (by decide))

end PeerCalls
